import Mathlib

/-!
Verification of the `generate` command pipeline (cmd/generate.go) of the
acs-engine repository: a shallow embedding of the data model, the
override-merging constructor `NewGenerator`, the document cleanup transform of
`getContService`, and the validation function `validatef`, together with
theorems settling the specification's claims about them.

Go conventions embedded here:
  * Go `nil` pointers become `Option`; dereferencing `none` is a crash
    (`panic` below), not an error return.
  * Go byte slices read from files become `String` (the code converts them
    with `string(bytes)` anyway).
  * The filesystem is a parameter (`FileSystem`), as are the JSON
    marshal/unmarshal and API-deserialization collaborators, which live
    outside the source under verification.
-/

/-- Result of a Go function returning `(T, error)` whose partial state is
discarded by every caller on error (e.g. `NewGenerator` returns `nil, err`).
`panic` is a nil-pointer dereference crash. -/
inductive GoResult (α : Type) where
  | ok : α → GoResult α
  | err : String → GoResult α
  | panic : GoResult α
deriving DecidableEq, Repr

/-- Result of a Go method that mutates its receiver in place and returns
`error`: `err` carries the receiver's state at the moment of the error
return, `panic` is a nil-pointer dereference crash. -/
inductive StepResult (α : Type) where
  | ok : α → StepResult α
  | err : String → α → StepResult α
  | panic : StepResult α
deriving DecidableEq, Repr

/-! ## Data model

Modelled from the spec: the `pkg/api` model types are repository code that is
not part of the visible source, so their shape is taken from the spec's data
model (§3): the managed and hosted master-profile variants are two nullable
fields (§9 confirms the original stores them as two nullable pointers, as
does the source's own `!= nil` branching), the service-principal identity
"may be absent", the certificate profile is "absent until CA material is
supplied", and the linux profile is always present and carries SSH public-key
material. -/

/-- Modelled from the spec: managed master profile, "carries a DNS prefix". -/
structure MasterProfile where
  DNSPrefix : String
deriving DecidableEq, Repr

/-- Modelled from the spec: hosted master profile, "carries its own DNS
prefix". -/
structure HostedMasterProfile where
  DNSPrefix : String
deriving DecidableEq, Repr

/-- Modelled from the spec: one SSH public key. -/
structure PublicKey where
  KeyData : String
deriving DecidableEq, Repr

/-- Modelled from the spec: SSH configuration of the linux profile. -/
structure SSHConfig where
  PublicKeys : List PublicKey
deriving DecidableEq, Repr

/-- Modelled from the spec: linux profile holding SSH public-key material. -/
structure LinuxProfile where
  SSH : SSHConfig
deriving DecidableEq, Repr

/-- Modelled from the spec: service-principal identity (client id + secret). -/
structure ServicePrincipalProfile where
  ClientID : String
  Secret : String
deriving DecidableEq, Repr

/-- Modelled from the spec: certificate profile holding the CA certificate
and CA private key as opaque payloads (strings). -/
structure CertificateProfile where
  CaCertificate : String
  CaPrivateKey : String
deriving DecidableEq, Repr

/-- Modelled from the spec: the `properties` section of the model. Nullable
Go pointer fields are `Option`. -/
structure Properties where
  MasterProfile : Option MasterProfile
  HostedMasterProfile : Option HostedMasterProfile
  LinuxProfile : LinuxProfile
  ServicePrincipalProfile : Option ServicePrincipalProfile
  CertificateProfile : Option CertificateProfile
deriving DecidableEq, Repr

/-- Modelled from the spec: the deserialized container service; its
`Properties` pointer is shared with the command state, so mutations made by
validation persist on the model. -/
structure ContainerService where
  Properties : Properties
deriving DecidableEq, Repr

/-- `type Model struct { APIVersion string; Props api.Properties }`. -/
structure Model where
  APIVersion : String
  Props : Properties
deriving DecidableEq, Repr

/-- `type GenConf struct { ApiConfPath, OutDir, Name, SSHKey string;
CliProfile *api.ServicePrincipalProfile }`. -/
structure GenConf where
  ApiConfPath : String
  OutDir : String
  Name : String
  SSHKey : String
  CliProfile : Option ServicePrincipalProfile
deriving DecidableEq, Repr

/-- `type generateCmd struct { ... }`: the flag fields plus the derived
container service (`*api.ContainerService`, nil until `getContService` runs)
and API version. The `locale` field belongs to the external localization
collaborator and carries no pipeline-visible state. -/
structure generateCmd where
  apimodelPath : String
  outputDirectory : String
  caCertificatePath : String
  caPrivateKeyPath : String
  classicMode : Bool
  noPrettyPrint : Bool
  parametersOnly : Bool
  containerService : Option ContainerService
  apiVersion : String
deriving DecidableEq, Repr

/-- The filesystem collaborator: `exists` abstracts `os.Stat`/`os.Open`
existence, `readFile` abstracts `ioutil.ReadFile`/`ReadAll` (`Except.error`
is an I/O error carrying the Go error text). -/
structure FileSystem where
  pathExists : String → Bool
  readFile : String → Except String String

/-! ## Go `path` package

`path.Join(a, b)` joins its non-empty elements with a slash and applies
`path.Clean`. `path.Clean` is embedded by its segment semantics: split on
slashes, drop empty and `.` segments, let `..` pop a preceding non-`..`
segment (dropped entirely at the root of a rooted path), and rejoin. -/

/-- Split a character list on `'/'` (the segment list of a path; empty
segments are kept, as with `strings.Split`). -/
def splitSlash : List Char → List (List Char)
  | [] => [[]]
  | c :: rest =>
    match splitSlash rest with
    | [] => [[]]
    | seg :: segs => if c = '/' then [] :: seg :: segs else (c :: seg) :: segs

/-- One step of `path.Clean`'s segment processing: `stack` is the reversed
list of output segments so far. -/
def cleanSeg (rooted : Bool) (stack : List (List Char)) (seg : List Char) :
    List (List Char) :=
  if seg = [] ∨ seg = ['.'] then stack
  else if seg = ['.', '.'] then
    match stack with
    | [] => if rooted then [] else [['.', '.']]
    | top :: rest => if top = ['.', '.'] then seg :: top :: rest else rest
  else seg :: stack

/-- Rejoin segments with slashes. -/
def joinSegs : List (List Char) → List Char
  | [] => []
  | [s] => s
  | s :: rest => s ++ '/' :: joinSegs rest

/-- `path.Clean` on a character list. -/
def pathCleanChars (p : List Char) : List Char :=
  match p with
  | [] => ['.']
  | c :: _ =>
    if c = '/' then '/' :: joinSegs ((splitSlash p).foldl (cleanSeg true) []).reverse
    else if joinSegs ((splitSlash p).foldl (cleanSeg false) []).reverse = [] then ['.']
    else joinSegs ((splitSlash p).foldl (cleanSeg false) []).reverse

/-- Go `path.Clean`. -/
def pathClean (s : String) : String := ⟨pathCleanChars s.data⟩

/-- Go `path.Join` on two elements: empty elements are skipped, the rest are
joined with `'/'` and cleaned; joining nothing gives the empty string. -/
def pathJoin (a b : String) : String :=
  if a = "" then (if b = "" then "" else pathClean b)
  else if b = "" then pathClean a
  else pathClean (a ++ "/" ++ b)

/-! ## The cleanup transform (getContService, line 124)

`scont := strings.Replace(string(contents), "\"subnet\":\"\",", "", -1)`:
remove every (non-overlapping, left-to-right) occurrence of the malformed
empty-subnet pattern. -/

/-- The exact malformed pattern `"subnet":"",` as characters. -/
def subnetPattern : List Char := "\"subnet\":\"\",".data

/-- Left-to-right removal of every occurrence of `subnetPattern`, the
semantics of Go `strings.Replace(s, pat, "", -1)`. -/
def stripEmptySubnet (s : List Char) : List Char :=
  match s with
  | [] => []
  | c :: rest =>
    if subnetPattern.isPrefixOf (c :: rest) then
      stripEmptySubnet ((c :: rest).drop subnetPattern.length)
    else
      c :: stripEmptySubnet rest
termination_by s.length
decreasing_by
  · simp only [List.length_drop, List.length_cons]
    have : 0 < subnetPattern.length := by decide
    omega
  · simp

/-- Does the malformed pattern occur anywhere in the document? -/
def hasSubnetPattern : List Char → Bool
  | [] => false
  | c :: rest => subnetPattern.isPrefixOf (c :: rest) || hasSubnetPattern rest

/-- The document cleanup transform applied to the serialized model before
deserialization (generate.go line 124). -/
def cleanupTransform (s : String) : String := ⟨stripEmptySubnet s.data⟩

/-! ## getContService (generate.go lines 111-133)

`json.Marshal` of the in-memory model and `DeserializeContainerService` are
external collaborators (`encoding/json`, `pkg/api`), passed as parameters:
`marshal` serializes a model (it cannot fail on this struct), `deserialize`
returns the container service and its API version or a parse error. On a
deserialization error the multi-assignment on line 127 leaves the receiver's
derived fields at the returned zero values and the method returns the
wrapped error; every caller discards the receiver then, so a plain
`GoResult` is used. -/

/-- `func (gc *generateCmd) getContService(m *Model) error`. -/
def getContService (marshal : Model → String)
    (deserialize : String → Except String (ContainerService × String))
    (gc : generateCmd) (m : Model) : GoResult generateCmd :=
  let contents := marshal m
  let scont := cleanupTransform contents
  match deserialize scont with
  | .error e => .err ("error parsing the api model: " ++ e)
  | .ok (cs, ver) =>
      .ok { gc with containerService := some cs, apiVersion := ver }

/-! ## NewGenerator (generate.go lines 52-82) -/

/-- The override merge of `NewGenerator` (lines 69-71):
`model.Props.ServicePrincipalProfile = conf.CliProfile`,
`model.Props.MasterProfile.DNSPrefix = conf.Name`,
`model.Props.LinuxProfile.SSH.PublicKeys = []api.PublicKey{{KeyData: conf.SSHKey}}`.
The second assignment dereferences the `MasterProfile` pointer, so it
crashes when the managed master profile is absent. -/
def applyOverrides (conf : GenConf) (props : Properties) :
    GoResult Properties :=
  let props := { props with ServicePrincipalProfile := conf.CliProfile }
  match props.MasterProfile with
  | none => .panic
  | some mp =>
    let props := { props with MasterProfile := some { mp with DNSPrefix := conf.Name } }
    .ok { props with
            LinuxProfile := { props.LinuxProfile with
              SSH := { props.LinuxProfile.SSH with
                PublicKeys := [{ KeyData := conf.SSHKey }] } } }

/-- `func NewGenerator(conf *GenConf) (*generateCmd, error)`: open and read
the config file, unmarshal it (`parse` is `encoding/json`'s unmarshal into
`Model`), apply the overrides, build the command state and run
`getContService`. -/
def NewGenerator (fs : FileSystem) (parse : String → Except String Model)
    (marshal : Model → String)
    (deserialize : String → Except String (ContainerService × String))
    (conf : GenConf) : GoResult generateCmd :=
  if fs.pathExists conf.ApiConfPath = false then
    .err ("open " ++ conf.ApiConfPath ++ ": no such file or directory")
  else
    match fs.readFile conf.ApiConfPath with
    | .error e => .err e
    | .ok data =>
      match parse data with
      | .error e => .err e
      | .ok model =>
        match applyOverrides conf model.Props with
        | .panic => .panic
        | .err e => .err e
        | .ok props =>
          let gen : generateCmd :=
            { apimodelPath := conf.ApiConfPath
              outputDirectory := conf.OutDir
              caCertificatePath := ""
              caPrivateKeyPath := ""
              classicMode := false
              noPrettyPrint := false
              parametersOnly := false
              containerService := none
              apiVersion := "" }
          match getContService marshal deserialize gen { model with Props := props } with
          | .err e => .err e
          | .panic => .panic
          | .ok gen => .ok gen

/-! ## validatef (generate.go lines 135-173) -/

/-- Output-directory resolution (lines 144-150): when no explicit output
directory was supplied, derive it from the master profile's DNS prefix,
falling back to the hosted master profile's. Dereferences
`gc.containerService` and, on the fallback branch, the
`HostedMasterProfile` pointer, so either being nil is a crash. -/
def resolveOutputDirectory (gc : generateCmd) : StepResult generateCmd :=
  if gc.outputDirectory = "" then
    match gc.containerService with
    | none => .panic
    | some cs =>
      match cs.Properties.MasterProfile with
      | some mp =>
          .ok { gc with outputDirectory := pathJoin "_output" mp.DNSPrefix }
      | none =>
        match cs.Properties.HostedMasterProfile with
        | some hmp =>
            .ok { gc with outputDirectory := pathJoin "_output" hmp.DNSPrefix }
        | none => .panic
  else .ok gc

/-- `func (gc *generateCmd) validatef() error`: existence re-check of the
api-model path, output-directory resolution, CA pairing rule, CA file reads
and certificate-profile population. `err` results carry the receiver's
state at the moment of the error return. -/
def validatef (fs : FileSystem) (gc : generateCmd) : StepResult generateCmd :=
  if fs.pathExists gc.apimodelPath = false then
    .err ("specified api model does not exist (" ++ gc.apimodelPath ++ ")") gc
  else
    match resolveOutputDirectory gc with
    | .panic => .panic
    | .err e g => .err e g
    | .ok gc =>
      if (gc.caCertificatePath ≠ "" ∧ gc.caPrivateKeyPath = "") ∨
         (gc.caCertificatePath = "" ∧ gc.caPrivateKeyPath ≠ "") then
        .err "--ca-certificate-path and --ca-private-key-path must be specified together" gc
      else if gc.caCertificatePath ≠ "" then
        match fs.readFile gc.caCertificatePath with
        | .error e => .err ("failed to read CA certificate file: " ++ e) gc
        | .ok caCertificateBytes =>
          match fs.readFile gc.caPrivateKeyPath with
          | .error e => .err ("failed to read CA private key file: " ++ e) gc
          | .ok caKeyBytes =>
            match gc.containerService with
            | none => .panic
            | some cs =>
              let prop := cs.Properties
              let certProf :=
                match prop.CertificateProfile with
                | none => ({ CaCertificate := "", CaPrivateKey := "" } : CertificateProfile)
                | some cp => cp
              let certProf :=
                { certProf with CaCertificate := caCertificateBytes
                                CaPrivateKey := caKeyBytes }
              let prop := { prop with CertificateProfile := some certProf }
              .ok { gc with containerService := some { cs with Properties := prop } }
      else .ok gc

/-! ## The flag-driven CLI path (generate.go lines 84-109 and 175-198) -/

/-- The command state `newGenerateCmd` builds: `gc := generateCmd{}` with the
flag values bound by `StringVar`/`BoolVar`. The derived fields stay at their
zero values — nothing in this path ever calls `getContService`, so
`containerService` is nil when `validate` runs. -/
def cliGenerateCmd (apimodel outputDir caCert caKey : String)
    (classic noPretty paramsOnly : Bool) : generateCmd :=
  { apimodelPath := apimodel
    outputDirectory := outputDir
    caCertificatePath := caCert
    caPrivateKeyPath := caKey
    classicMode := classic
    noPrettyPrint := noPretty
    parametersOnly := paramsOnly
    containerService := none
    apiVersion := "" }

/-- `func (gc *generateCmd) validate(cmd *cobra.Command, args []string) error`:
load translations (external collaborator, passed as `loadTranslations`),
resolve the api-model path from the positional arguments when the flag was
not given, then run `validatef`. -/
def validateCmd (fs : FileSystem) (loadTranslations : Except String Unit)
    (gc : generateCmd) (args : List String) : StepResult generateCmd :=
  match loadTranslations with
  | .error e => .err ("error loading translation files: " ++ e) gc
  | .ok _ =>
    if gc.apimodelPath = "" then
      match args with
      | [a] => validatef fs { gc with apimodelPath := a }
      | [] => .err "--api-model was not supplied, nor was one specified as a positional argument" gc
      | _ => .err "too many arguments were provided to 'generate'" gc
    else
      validatef fs gc

/-! ## Helper lemmas -/

/-- A no-pattern document is left unchanged by the character-level strip. -/
lemma stripEmptySubnet_eq_self (l : List Char) (h : hasSubnetPattern l = false) :
    stripEmptySubnet l = l := by
  induction l with
  | nil => simp [stripEmptySubnet]
  | cons c rest ih =>
    rw [hasSubnetPattern, Bool.or_eq_false_iff] at h
    rw [stripEmptySubnet, if_neg (by simp [h.1]), ih h.2]

/-- `splitSlash` never returns the empty list. -/
lemma splitSlash_ne_nil (l : List Char) : splitSlash l ≠ [] := by
  cases l with
  | nil => simp [splitSlash]
  | cons c rest =>
    rw [splitSlash]
    split
    · simp
    · split <;> simp

/-- A slash-free list is a single segment. -/
lemma splitSlash_no_slash (l : List Char) (h : '/' ∉ l) : splitSlash l = [l] := by
  induction l with
  | nil => rfl
  | cons c rest ih =>
    simp only [List.mem_cons, not_or] at h
    simp only [splitSlash, ih h.2]
    rw [if_neg (fun hc : c = '/' => h.1 hc.symm)]

/-- Splitting at the first slash after a slash-free head. -/
lemma splitSlash_append (l₁ l₂ : List Char) (h : '/' ∉ l₁) :
    splitSlash (l₁ ++ '/' :: l₂) = l₁ :: splitSlash l₂ := by
  induction l₁ with
  | nil =>
    rw [List.nil_append, splitSlash]
    cases hs : splitSlash l₂ with
    | nil => exact absurd hs (splitSlash_ne_nil l₂)
    | cons seg segs => simp
  | cons c rest ih =>
    simp only [List.mem_cons, not_or] at h
    rw [List.cons_append, splitSlash, ih h.2]
    simp only []
    rw [if_neg (fun hc : c = '/' => h.1 hc.symm)]

/-- `resolveOutputDirectory` only ever writes the output directory: every
other field of an `ok` result is the input's. -/
lemma resolveOutputDirectory_ok_fields (gc gc' : generateCmd)
    (h : resolveOutputDirectory gc = .ok gc') :
    gc'.apimodelPath = gc.apimodelPath ∧
    gc'.caCertificatePath = gc.caCertificatePath ∧
    gc'.caPrivateKeyPath = gc.caPrivateKeyPath ∧
    gc'.containerService = gc.containerService := by
  unfold resolveOutputDirectory at h
  split at h
  · split at h
    · exact absurd h (by simp)
    · split at h
      · injection h with h; subst h; simp
      · split at h
        · injection h with h; subst h; simp
        · exact absurd h (by simp)
  · injection h with h; subst h; simp

/-- `resolveOutputDirectory` never returns an error. -/
lemma resolveOutputDirectory_ne_err (gc : generateCmd) (e : String)
    (g : generateCmd) : resolveOutputDirectory gc ≠ .err e g := by
  unfold resolveOutputDirectory
  split
  · split
    · simp
    · split
      · simp
      · split <;> simp
  · simp

/-- Joining the default output root with a conventional DNS prefix (nonempty,
slash-free, not a dot segment) is plain slash concatenation. -/
lemma pathCleanChars_output (pl : List Char) (h0 : pl ≠ []) (h1 : pl ≠ ['.'])
    (h2 : pl ≠ ['.', '.']) (hs : '/' ∉ pl) :
    pathCleanChars ('_' :: 'o' :: 'u' :: 't' :: 'p' :: 'u' :: 't' :: '/' ::pl) =
      '_' :: 'o' :: 'u' :: 't' :: 'p' :: 'u' :: 't' :: '/' ::pl := by
  have s2 : cleanSeg false [['_','o','u','t','p','u','t']] pl =
      [pl, ['_','o','u','t','p','u','t']] := by
    rw [cleanSeg, if_neg (by simp [h0, h1]), if_neg h2]
  rw [pathCleanChars]
  rw [if_neg (by decide : ¬('_' = '/'))]
  rw [show ('_' :: 'o' :: 'u' :: 't' :: 'p' :: 'u' :: 't' :: '/' ::pl) =
        ['_','o','u','t','p','u','t'] ++ '/' :: pl from rfl]
  rw [splitSlash_append _ _ (by decide), splitSlash_no_slash pl hs]
  rw [List.foldl_cons, show cleanSeg false [] ['_','o','u','t','p','u','t'] =
        [['_','o','u','t','p','u','t']] from by decide]
  rw [List.foldl_cons, s2, List.foldl_nil]
  simp only [List.reverse_cons, List.reverse_nil, List.nil_append,
    List.cons_append, List.singleton_append, joinSegs]
  rw [if_neg (by simp)]

/-- `path.Join("_output", p)` for a conventional DNS prefix is the literal
`"_output/" ++ p`. -/
lemma pathJoin_output (p : String) (h0 : p ≠ "") (hs : '/' ∉ p.data)
    (h1 : p ≠ ".") (h2 : p ≠ "..") : pathJoin "_output" p = "_output/" ++ p := by
  obtain ⟨pl⟩ := p
  have hl0 : pl ≠ [] := fun hh => h0 (by rw [hh])
  have hl1 : pl ≠ ['.'] := fun hh => h1 (by rw [hh])
  have hl2 : pl ≠ ['.', '.'] := fun hh => h2 (by rw [hh])
  rw [pathJoin, if_neg (by decide : ¬("_output" : String) = ""), if_neg h0]
  rw [show ("_output" ++ "/" ++ (⟨pl⟩ : String)) =
        ⟨'_' :: 'o' :: 'u' :: 't' :: 'p' :: 'u' :: 't' :: '/' ::pl⟩ from rfl]
  rw [pathClean]
  apply String.ext
  show pathCleanChars ('_' :: 'o' :: 'u' :: 't' :: 'p' :: 'u' :: 't' :: '/' ::pl) =
    ("_output/" ++ (⟨pl⟩ : String)).data
  rw [pathCleanChars_output pl hl0 hl1 hl2 hs]
  rfl

/-! ## Concrete demonstration values -/

/-- A linux profile with one SSH key. -/
def linuxDemo : LinuxProfile := ⟨⟨[⟨"ssh-rsa AAAAB3Nza"⟩]⟩⟩

/-- Properties with a managed master profile only. -/
def propsManaged : Properties :=
  { MasterProfile := some ⟨"mycluster"⟩, HostedMasterProfile := none,
    LinuxProfile := linuxDemo, ServicePrincipalProfile := none,
    CertificateProfile := none }

/-- Properties with a hosted master profile only. -/
def propsHostedOnly : Properties :=
  { MasterProfile := none, HostedMasterProfile := some ⟨"hostedclu"⟩,
    LinuxProfile := linuxDemo, ServicePrincipalProfile := none,
    CertificateProfile := none }

/-- Properties with neither master-profile variant. -/
def propsNoProfiles : Properties :=
  { MasterProfile := none, HostedMasterProfile := none,
    LinuxProfile := linuxDemo, ServicePrincipalProfile := none,
    CertificateProfile := none }

/-- Container services over the three property records. -/
def csManaged : ContainerService := ⟨propsManaged⟩

/-- Hosted-only container service. -/
def csHosted : ContainerService := ⟨propsHostedOnly⟩

/-- Container service with no master-profile variant at all. -/
def csNoProfiles : ContainerService := ⟨propsNoProfiles⟩

/-- A filesystem on which the api model and both CA files exist and read
successfully, and everything else is missing. -/
def fsDemo : FileSystem :=
  { pathExists := fun p => p = "model.json" || p = "ca.crt" || p = "ca.key"
    readFile := fun p =>
      if p = "ca.crt" then .ok "CERTDATA"
      else if p = "ca.key" then .ok "KEYDATA"
      else .error ("open " ++ p ++ ": no such file or directory") }

/-- Loaded command state, managed master profile, no explicit output dir. -/
def gcManaged : generateCmd :=
  { apimodelPath := "model.json", outputDirectory := "",
    caCertificatePath := "", caPrivateKeyPath := "", classicMode := false,
    noPrettyPrint := false, parametersOnly := false,
    containerService := some csManaged, apiVersion := "vlabs" }

/-- Loaded command state, hosted master profile only. -/
def gcHosted : generateCmd := { gcManaged with containerService := some csHosted }

/-- Loaded command state whose model has no master-profile variant. -/
def gcNoProfiles : generateCmd :=
  { gcManaged with containerService := some csNoProfiles }

/-- Command state with only the CA certificate path set. -/
def gcCertOnly : generateCmd :=
  { apimodelPath := "model.json", outputDirectory := "_out",
    caCertificatePath := "ca.crt", caPrivateKeyPath := "", classicMode := false,
    noPrettyPrint := false, parametersOnly := false, containerService := none,
    apiVersion := "" }

/-- Command state with only the CA private key path set. -/
def gcKeyOnly : generateCmd :=
  { gcCertOnly with caCertificatePath := "", caPrivateKeyPath := "ca.key" }

/-- Command state with both CA paths set and a loaded model. -/
def gcBothCA : generateCmd :=
  { gcCertOnly with caPrivateKeyPath := "ca.key", containerService := some csManaged }

/-- Runtime overrides for `NewGenerator`. -/
def confDemo : GenConf :=
  { ApiConfPath := "model.json", OutDir := "", Name := "mycluster",
    SSHKey := "ssh-rsa AAAAB3Nza", CliProfile := some ⟨"client-id", "secret"⟩ }

/-! ## Claims -/

/-- C5: the document cleanup transform is a no-op on clean input: for every
serialized document in which the malformed empty-subnet pattern
`"subnet":"",` does not occur, `strings.Replace` with that pattern returns
the input unchanged, altering no other content. -/
theorem C5_cleanup_transform_noop (s : String)
    (h : hasSubnetPattern s.data = false) : cleanupTransform s = s := by
  apply String.ext
  show stripEmptySubnet s.data = s.data
  exact stripEmptySubnet_eq_self s.data h

/-- C5 witness: a concrete clean document is returned unchanged. -/
theorem C5_witness :
    hasSubnetPattern "[\"no\",\"such\",\"pattern\"]".data = false ∧
    cleanupTransform "[\"no\",\"such\",\"pattern\"]" = "[\"no\",\"such\",\"pattern\"]" :=
  ⟨by decide, C5_cleanup_transform_noop _ (by decide)⟩

/-- C4: for every model with no explicit output directory, a present managed
master profile with DNS prefix `p` resolves the output directory to
`path.Join("_output", p)`, and with the managed profile absent a hosted
master profile with prefix `q` resolves it to `path.Join("_output", q)`;
for every conventional prefix (nonempty, slash-free, not a dot segment) that
join is exactly the literal `<root>/<prefix>` string. -/
theorem C4_output_directory_derivation (gc : generateCmd) (cs : ContainerService)
    (hdir : gc.outputDirectory = "") (hcs : gc.containerService = some cs) :
    (∀ mp, cs.Properties.MasterProfile = some mp →
      resolveOutputDirectory gc =
        .ok { gc with outputDirectory := pathJoin "_output" mp.DNSPrefix }) ∧
    (∀ hmp, cs.Properties.MasterProfile = none →
      cs.Properties.HostedMasterProfile = some hmp →
      resolveOutputDirectory gc =
        .ok { gc with outputDirectory := pathJoin "_output" hmp.DNSPrefix }) ∧
    (∀ p : String, p ≠ "" → '/' ∉ p.data → p ≠ "." → p ≠ ".." →
      pathJoin "_output" p = "_output/" ++ p) := by
  refine ⟨?_, ?_, fun p a b c d => pathJoin_output p a b c d⟩
  · intro mp hmp
    simp [resolveOutputDirectory, hdir, hcs, hmp]
  · intro hmp hnone hsome
    simp [resolveOutputDirectory, hdir, hcs, hnone, hsome]

/-- C4 witness: on a concrete managed-master model with prefix `mycluster`
and no explicit output directory, the resolved directory is
`_output/mycluster`. -/
theorem C4_witness :
    gcManaged.outputDirectory = "" ∧
    gcManaged.containerService = some csManaged ∧
    csManaged.Properties.MasterProfile = some ⟨"mycluster"⟩ ∧
    resolveOutputDirectory gcManaged =
      .ok { gcManaged with outputDirectory := pathJoin "_output" "mycluster" } ∧
    pathJoin "_output" "mycluster" = "_output/mycluster" := by
  refine ⟨rfl, rfl, rfl, ?_, ?_⟩
  · exact (C4_output_directory_derivation gcManaged csManaged rfl rfl).1
      ⟨"mycluster"⟩ rfl
  · exact (C4_output_directory_derivation gcManaged csManaged rfl rfl).2.2
      "mycluster" (by decide) (by decide) (by decide) (by decide)

/-- Command state with a loaded managed-master model, empty output directory
and only the CA certificate path set. -/
def gcMixed : generateCmd := { gcManaged with caCertificatePath := "ca.crt" }

/-- A filesystem on which no path exists. -/
def fsNone : FileSystem :=
  { pathExists := fun _ => false
    readFile := fun p => .error ("open " ++ p ++ ": no such file or directory") }

/-- C9: in the flag-driven CLI path (`newGenerateCmd`), no document is ever
loaded into the model — nothing calls `getContService`, so the container
service stays nil — and for every invocation that omits the
output-directory flag, output-directory derivation inside validation
dereferences the nil container service and crashes instead of returning an
error. -/
theorem C9_cli_path_crash (fs : FileSystem) (apimodel caCert caKey : String)
    (classic noPretty paramsOnly : Bool) (args : List String)
    (hm : apimodel ≠ "") (hex : fs.pathExists apimodel = true) :
    validateCmd fs (.ok ())
      (cliGenerateCmd apimodel "" caCert caKey classic noPretty paramsOnly)
      args = .panic := by
  simp [validateCmd, validatef, resolveOutputDirectory, cliGenerateCmd, hm, hex]

/-- C9 witness: a concrete CLI invocation with an existing api model and no
output-directory flag crashes during validation. -/
theorem C9_witness :
    "model.json" ≠ "" ∧ fsDemo.pathExists "model.json" = true ∧
    validateCmd fsDemo (.ok ())
      (cliGenerateCmd "model.json" "" "" "" false false false) [] = .panic :=
  ⟨by decide, by decide,
    C9_cli_path_crash fsDemo "model.json" "" "" false false false []
      (by decide) (by decide)⟩

/-- C8: when the cluster-definition document path does not exist, the
pipeline constructor fails with the not-found open error before any
deserialization is attempted (the result is this error for every possible
parse/marshal/deserialize collaborator, so none of them is consulted), and
`validatef` independently re-checks existence and fails with its own
not-found error before doing any further work (the returned state is the
input state, untouched, for every command state and filesystem). -/
theorem C8_notfound_before_work :
    (∀ (fs : FileSystem) (parse : String → Except String Model)
       (marshal : Model → String)
       (deserialize : String → Except String (ContainerService × String))
       (conf : GenConf), fs.pathExists conf.ApiConfPath = false →
       NewGenerator fs parse marshal deserialize conf =
         .err ("open " ++ conf.ApiConfPath ++ ": no such file or directory")) ∧
    (∀ (fs : FileSystem) (gc : generateCmd),
       fs.pathExists gc.apimodelPath = false →
       validatef fs gc =
         .err ("specified api model does not exist (" ++ gc.apimodelPath ++ ")") gc) := by
  constructor
  · intro fs parse marshal deserialize conf h
    rw [NewGenerator, if_pos h]
  · intro fs gc h
    rw [validatef, if_pos h]

/-- C8 witness: on a filesystem with no files, both the constructor and the
validator fail with their not-found errors. -/
theorem C8_witness :
    fsNone.pathExists confDemo.ApiConfPath = false ∧
    NewGenerator fsNone (fun _ => .error "unused") (fun _ => "")
      (fun _ => .error "unused") confDemo =
      .err "open model.json: no such file or directory" ∧
    fsNone.pathExists gcCertOnly.apimodelPath = false ∧
    validatef fsNone gcCertOnly =
      .err "specified api model does not exist (model.json)" gcCertOnly := by
  refine ⟨rfl, ?_, rfl, ?_⟩
  · exact C8_notfound_before_work.1 fsNone _ _ _ confDemo rfl
  · exact C8_notfound_before_work.2 fsNone gcCertOnly rfl

/-- C2: for every configuration reaching the CA pairing rule (document
exists, output-directory resolution succeeded) in which exactly one of the
CA certificate path and the CA private key path is set — regardless of
which one — validation returns the validation error whose message names
both flags: `--ca-certificate-path and --ca-private-key-path must be
specified together`. -/
theorem C2_ca_pairing_error (fs : FileSystem) (gc gc1 : generateCmd)
    (hex : fs.pathExists gc.apimodelPath = true)
    (hres : resolveOutputDirectory gc = .ok gc1)
    (hone : (gc.caCertificatePath ≠ "" ∧ gc.caPrivateKeyPath = "") ∨
            (gc.caCertificatePath = "" ∧ gc.caPrivateKeyPath ≠ "")) :
    validatef fs gc =
      .err "--ca-certificate-path and --ca-private-key-path must be specified together" gc1 := by
  obtain ⟨-, hc, hk, -⟩ := resolveOutputDirectory_ok_fields gc gc1 hres
  simp only [validatef, hex, Bool.true_eq_false, if_false, hres]
  rw [hc, hk, if_pos hone]

/-- C2 witness: both orientations on concrete configurations — certificate
path set with key path empty, and key path set with certificate path
empty — yield the pairing error naming both flags. -/
theorem C2_witness :
    fsDemo.pathExists gcCertOnly.apimodelPath = true ∧
    resolveOutputDirectory gcCertOnly = .ok gcCertOnly ∧
    (gcCertOnly.caCertificatePath ≠ "" ∧ gcCertOnly.caPrivateKeyPath = "") ∧
    validatef fsDemo gcCertOnly =
      .err "--ca-certificate-path and --ca-private-key-path must be specified together" gcCertOnly ∧
    (gcKeyOnly.caCertificatePath = "" ∧ gcKeyOnly.caPrivateKeyPath ≠ "") ∧
    validatef fsDemo gcKeyOnly =
      .err "--ca-certificate-path and --ca-private-key-path must be specified together" gcKeyOnly := by
  refine ⟨by decide, by decide, by decide, ?_, by decide, ?_⟩
  · exact C2_ca_pairing_error fsDemo gcCertOnly gcCertOnly (by decide)
      (by decide) (.inl (by decide))
  · exact C2_ca_pairing_error fsDemo gcKeyOnly gcKeyOnly (by decide)
      (by decide) (.inr (by decide))

/-- C10: validation is atomic with respect to the certificate profile: for
every configuration and model, whenever `validatef` returns an error — the
not-found error, the unpaired-CA error, or a read failure on either CA
file — the model's certificate profile in the returned state is exactly
what it was before validation ran; it is created and populated only after
both CA files have been read successfully. -/
theorem C10_validate_error_atomicity (fs : FileSystem) (gc gc' : generateCmd)
    (msg : String) (h : validatef fs gc = .err msg gc') :
    gc'.containerService.map (fun cs => cs.Properties.CertificateProfile) =
      gc.containerService.map (fun cs => cs.Properties.CertificateProfile) := by
  rw [validatef] at h
  split at h
  · injection h with h1 h2
    subst h2
    rfl
  · split at h
    · exact absurd h (by simp)
    · rename_i e g heq
      exact absurd heq (resolveOutputDirectory_ne_err gc e g)
    · rename_i gc1 heq
      have hcs : gc1.containerService = gc.containerService :=
        (resolveOutputDirectory_ok_fields gc gc1 heq).2.2.2
      split at h
      · injection h with h1 h2
        subst h2
        rw [hcs]
      · split at h
        · split at h
          · injection h with h1 h2
            subst h2
            rw [hcs]
          · split at h
            · injection h with h1 h2
              subst h2
              rw [hcs]
            · split at h
              · exact absurd h (by simp)
              · exact absurd h (by simp)
        · exact absurd h (by simp)

/-- C10 witness: a concrete configuration that resolves the output directory
and then fails the CA pairing rule returns an error state whose certificate
profile is the input's. -/
theorem C10_witness :
    validatef fsDemo gcMixed =
      .err "--ca-certificate-path and --ca-private-key-path must be specified together"
        { gcMixed with outputDirectory := "_output/mycluster" } ∧
    ({ gcMixed with outputDirectory := "_output/mycluster" } : generateCmd).containerService.map
        (fun cs => cs.Properties.CertificateProfile) =
      gcMixed.containerService.map (fun cs => cs.Properties.CertificateProfile) := by
  have h : validatef fsDemo gcMixed =
      .err "--ca-certificate-path and --ca-private-key-path must be specified together"
        { gcMixed with outputDirectory := "_output/mycluster" } := by decide
  exact ⟨h, C10_validate_error_atomicity fsDemo gcMixed _ _ h⟩

/-- The command state whose model carries a certificate profile populated
with the given CA certificate and key strings (the shape produced by lines
165-170 of `validatef`). -/
def withCertProfile (gc : generateCmd) (cs : ContainerService) (c k : String) : generateCmd :=
  { gc with containerService := some ⟨{ cs.Properties with CertificateProfile := some ⟨c, k⟩ }⟩ }

/-- C3: for every configuration reaching the CA handling with both CA paths
set and a loaded model, if both files read successfully validation succeeds
and the model's certificate profile — created when absent — holds exactly
the two files' bytes as strings; an I/O error reading either file yields
the corresponding read-failure error. -/
theorem C3_ca_population (fs : FileSystem) (gc gc1 : generateCmd)
    (cs : ContainerService)
    (hex : fs.pathExists gc.apimodelPath = true)
    (hres : resolveOutputDirectory gc = .ok gc1)
    (hcs : gc.containerService = some cs)
    (hcert : gc.caCertificatePath ≠ "") (hkey : gc.caPrivateKeyPath ≠ "") :
    (∀ certData keyData,
      fs.readFile gc.caCertificatePath = .ok certData →
      fs.readFile gc.caPrivateKeyPath = .ok keyData →
      validatef fs gc = .ok (withCertProfile gc1 cs certData keyData)) ∧
    (∀ e, fs.readFile gc.caCertificatePath = .error e →
      validatef fs gc = .err ("failed to read CA certificate file: " ++ e) gc1) ∧
    (∀ certData e, fs.readFile gc.caCertificatePath = .ok certData →
      fs.readFile gc.caPrivateKeyPath = .error e →
      validatef fs gc = .err ("failed to read CA private key file: " ++ e) gc1) := by
  obtain ⟨-, hc, hk, hsvc⟩ := resolveOutputDirectory_ok_fields gc gc1 hres
  refine ⟨?_, ?_, ?_⟩
  · intro certData keyData h1 h2
    simp only [validatef, hex, Bool.true_eq_false, if_false, hres]
    rw [hc, hk]
    rw [if_neg (by simp [hcert, hkey]), if_pos hcert]
    rw [hsvc, hcs]
    simp only [h1, h2]
    cases hcp : cs.Properties.CertificateProfile with
    | none =>
      simp [hcp, withCertProfile]
      exact ⟨hc.symm, hk.symm⟩
    | some cp =>
      obtain ⟨a, b⟩ := cp
      simp [hcp, withCertProfile]
      exact ⟨hc.symm, hk.symm⟩
  · intro e h1
    simp only [validatef, hex, Bool.true_eq_false, if_false, hres]
    rw [hc, hk]
    rw [if_neg (by simp [hcert, hkey]), if_pos hcert]
    simp only [h1]
  · intro certData e h1 h2
    simp only [validatef, hex, Bool.true_eq_false, if_false, hres]
    rw [hc, hk]
    rw [if_neg (by simp [hcert, hkey]), if_pos hcert]
    simp only [h1, h2]

/-- C3 witness: with both CA files present and readable, validation returns
the model populated with exactly the file contents. -/
theorem C3_witness :
    fsDemo.pathExists gcBothCA.apimodelPath = true ∧
    resolveOutputDirectory gcBothCA = .ok gcBothCA ∧
    gcBothCA.containerService = some csManaged ∧
    gcBothCA.caCertificatePath ≠ "" ∧ gcBothCA.caPrivateKeyPath ≠ "" ∧
    fsDemo.readFile gcBothCA.caCertificatePath = .ok "CERTDATA" ∧
    fsDemo.readFile gcBothCA.caPrivateKeyPath = .ok "KEYDATA" ∧
    validatef fsDemo gcBothCA =
      .ok (withCertProfile gcBothCA csManaged "CERTDATA" "KEYDATA") := by
  refine ⟨by decide, by decide, rfl, by decide, by decide, rfl, rfl, ?_⟩
  exact (C3_ca_population fsDemo gcBothCA gcBothCA csManaged (by decide)
    (by decide) rfl (by decide) (by decide)).1 "CERTDATA" "KEYDATA" rfl rfl

/-- C1 counterexample: the claim says that with no explicit output directory
and neither master-profile variant carrying a usable DNS prefix, resolution
fails with a configuration error rather than crashing; on this concrete
model (both profiles absent, document present) validation crashes with a
nil dereference instead. -/
theorem C1_counterexample : validatef fsDemo gcNoProfiles = .panic := by decide

/-- C1 (amended): when no explicit output directory is supplied, resolution
does not crash when the managed master profile is absent but the hosted one
is present — it follows the hosted profile — but when neither profile is
present it crashes with a nil dereference instead of failing with a
configuration error. -/
theorem C1_output_dir_fallback (gc : generateCmd) (cs : ContainerService)
    (hdir : gc.outputDirectory = "") (hcs : gc.containerService = some cs)
    (hmp : cs.Properties.MasterProfile = none) :
    (∀ hmpp, cs.Properties.HostedMasterProfile = some hmpp →
      resolveOutputDirectory gc =
        .ok { gc with outputDirectory := pathJoin "_output" hmpp.DNSPrefix }) ∧
    (cs.Properties.HostedMasterProfile = none →
      resolveOutputDirectory gc = .panic) := by
  constructor
  · intro hmpp hsome
    simp [resolveOutputDirectory, hdir, hcs, hmp, hsome]
  · intro hnone
    simp [resolveOutputDirectory, hdir, hcs, hmp, hnone]

/-- C1 witness: a hosted-only model resolves to the hosted prefix without
crashing; a model with neither profile crashes. -/
theorem C1_witness :
    gcHosted.outputDirectory = "" ∧ gcHosted.containerService = some csHosted ∧
    csHosted.Properties.MasterProfile = none ∧
    csHosted.Properties.HostedMasterProfile = some ⟨"hostedclu"⟩ ∧
    resolveOutputDirectory gcHosted =
      .ok { gcHosted with outputDirectory := pathJoin "_output" "hostedclu" } ∧
    gcNoProfiles.containerService = some csNoProfiles ∧
    csNoProfiles.Properties.HostedMasterProfile = none ∧
    resolveOutputDirectory gcNoProfiles = .panic := by
  refine ⟨rfl, rfl, rfl, rfl, ?_, rfl, rfl, ?_⟩
  · exact (C1_output_dir_fallback gcHosted csHosted rfl rfl rfl).1 ⟨"hostedclu"⟩ rfl
  · exact (C1_output_dir_fallback gcNoProfiles csNoProfiles rfl rfl rfl).2 rfl

/-- C6 counterexample: the claim says the override merge replaces the
identity profile, DNS prefix and SSH key list for every loaded model; on
this concrete loaded model — a hosted-master-only document, valid under the
data model's "exactly one variant" invariant — the merge crashes on the nil
managed master profile and replaces nothing. -/
theorem C6_counterexample :
    applyOverrides confDemo propsHostedOnly = .panic := by decide

/-- C6 (amended): for every loaded model whose managed master profile is
present, the override merge replaces the identity-profile object, the
master DNS-prefix string and the SSH public-key list with exactly the
override values regardless of what the document supplied, leaves the other
sections untouched, and applying the same override twice yields the same
final model as applying it once; for a model without a managed master
profile the merge crashes instead. -/
theorem C6_override_merge (conf : GenConf) (props : Properties)
    (mp : MasterProfile) (h : props.MasterProfile = some mp) :
    ∃ props', applyOverrides conf props = .ok props' ∧
      props'.ServicePrincipalProfile = conf.CliProfile ∧
      props'.MasterProfile = some ⟨conf.Name⟩ ∧
      props'.LinuxProfile.SSH.PublicKeys = [⟨conf.SSHKey⟩] ∧
      props'.HostedMasterProfile = props.HostedMasterProfile ∧
      props'.CertificateProfile = props.CertificateProfile ∧
      applyOverrides conf props' = .ok props' := by
  obtain ⟨pm, ph, pl, ps, pc⟩ := props
  cases pm with
  | none => simp at h
  | some mp2 => exact ⟨_, rfl, rfl, rfl, rfl, rfl, rfl, rfl⟩

/-- C6 witness: the overrides applied to a concrete managed-master model. -/
theorem C6_witness :
    propsManaged.MasterProfile = some ⟨"mycluster"⟩ ∧
    ∃ props', applyOverrides confDemo propsManaged = .ok props' ∧
      props'.ServicePrincipalProfile = confDemo.CliProfile ∧
      props'.MasterProfile = some ⟨confDemo.Name⟩ ∧
      props'.LinuxProfile.SSH.PublicKeys = [⟨confDemo.SSHKey⟩] ∧
      props'.HostedMasterProfile = propsManaged.HostedMasterProfile ∧
      props'.CertificateProfile = propsManaged.CertificateProfile ∧
      applyOverrides confDemo props' = .ok props' :=
  ⟨rfl, C6_override_merge confDemo propsManaged ⟨"mycluster"⟩ rfl⟩

/-- C7 counterexample: the claim says the override merge never fails or
crashes for any successfully deserialized model; on this concrete
deserialized model (no managed master profile) the DNS-prefix assignment
dereferences a nil pointer and crashes. -/
theorem C7_counterexample :
    applyOverrides confDemo propsNoProfiles = .panic := by decide

/-- C7 (amended): the override merge never returns an error of its own, and
on every deserialized model whose managed master profile is present it
succeeds; it can however crash (nil dereference) on a model whose managed
master profile is absent. -/
theorem C7_merge_no_error (conf : GenConf) (props : Properties) :
    (∀ e, applyOverrides conf props ≠ .err e) ∧
    (∀ mp, props.MasterProfile = some mp →
      ∃ props', applyOverrides conf props = .ok props') := by
  constructor
  · intro e
    obtain ⟨pm, ph, pl, ps, pc⟩ := props
    cases pm with
    | none => simp [applyOverrides]
    | some mp2 => simp [applyOverrides]
  · intro mp h
    obtain ⟨pm, ph, pl, ps, pc⟩ := props
    cases pm with
    | none => simp at h
    | some mp2 => exact ⟨_, rfl⟩

/-- C7 witness: on a concrete managed-master model the merge returns no
error and succeeds. -/
theorem C7_witness :
    propsManaged.MasterProfile = some ⟨"mycluster"⟩ ∧
    (∀ e, applyOverrides confDemo propsManaged ≠ .err e) ∧
    (∃ props', applyOverrides confDemo propsManaged = .ok props') :=
  ⟨rfl, (C7_merge_no_error confDemo propsManaged).1,
    (C7_merge_no_error confDemo propsManaged).2 ⟨"mycluster"⟩ rfl⟩
